import Mathlib

/-!
Shallow embedding of the `mcp-stdio-docker-test` server
(`src/mcp_stdio_test/server.py`, `src/mcp_stdio_test/logging_config.py`,
`scripts/view-logs.py`) and proofs of the frozen claims about it.

JSON values are embedded as an inductive `JVal`; Python's `random.*` draws are
passed in explicitly as a `TDRand` record whose `Valid` predicate records the
ranges the stdlib generators guarantee; machine floats are embedded as exact
rationals (no claim depends on binary-float rounding).
-/

/-- A JSON value as produced by the server's handlers: Python dicts become
association lists, preserving insertion order (which `json.dumps` keeps). -/
inductive JVal where
  | null : JVal
  | bool (b : Bool) : JVal
  | num (q : ℚ) : JVal
  | str (s : String) : JVal
  | arr (elems : List JVal) : JVal
  | obj (fields : List (String × JVal)) : JVal

/-- Python `dict.get(k)`: the value stored under `k`, if any. -/
def dictGet (fields : List (String × JVal)) (k : String) : Option JVal :=
  (fields.find? (fun p => p.1 == k)).map (fun p => p.2)

/-- Field lookup on an object value (used to state claims about results). -/
def JVal.getField : JVal → String → Option JVal
  | .obj fields, k => dictGet fields k
  | _, _ => none

/-- The population `string.ascii_letters + string.digits` that
`generate_random_string` draws from. -/
def alphanumChars : List Char :=
  "abcdefghijklmnopqrstuvwxyzABCDEFGHIJKLMNOPQRSTUVWXYZ0123456789".data

/-- The choice list for the record's `status` field (server.py line 77). -/
def statusChoices : List String := ["healthy", "degraded", "warning", "critical"]

/-- Python `f"{b:02x}"` for a byte: two lowercase hex digits. -/
def hexByte (n : ℕ) : String :=
  let digit := fun (d : ℕ) => ("0123456789abcdef".data.getD d '0')
  String.mk [digit (n / 16 % 16), digit (n % 16)]

/-- `generate_random_ip` (server.py line 35): joins four random octets. -/
def generate_random_ip (a b c d : ℕ) : String :=
  toString a ++ "." ++ toString b ++ "." ++ toString c ++ "." ++ toString d

/-- `generate_random_mac` (server.py line 40): six random bytes in hex
joined by colons. -/
def generate_random_mac (bytes : List ℕ) : String :=
  String.intercalate ":" (bytes.map hexByte)

/-- Round-half-to-even of the fraction `n / d` (`d ≠ 0`), computed on the raw
numerator and denominator with integer operations only: `f = ⌊n / d⌋` and the
remainder `r = n - f * d` satisfies `r / d < 1/2 ↔ 2r < d`. -/
def roundHalfEven (n : ℤ) (d : ℕ) : ℤ :=
  let f := n.fdiv (d : ℤ)
  let r := n - f * (d : ℤ)
  if 2 * r < (d : ℤ) then f
  else if (d : ℤ) < 2 * r then f + 1
  else if f % 2 = 0 then f else f + 1

/-- Python `round` of an exact rational to an integer (round-half-to-even). -/
def pyRoundInt (q : ℚ) : ℤ := roundHalfEven q.num q.den

/-- Python `round(x, 2)` on an exact rational: round `100 x` half-to-even,
then divide back. -/
def round2 (q : ℚ) : ℚ := (roundHalfEven (q.num * 100) q.den : ℚ) / 100

/-- One call's worth of draws from Python's `random`/`uuid`/`datetime` for
`generate_technical_data`: every stdlib sample the function takes, plus the
clock reading it formats into `timestamp`.  `Valid` below records the ranges
the stdlib primitives guarantee for these draws. -/
structure TDRand where
  uuid : String
  nowIso : String
  hostSuffix : List Char
  ipA : ℕ
  ipB : ℕ
  ipC : ℕ
  ipD : ℕ
  macBytes : List ℕ
  uptimeSeconds : ℕ
  cpuUniform : ℚ
  memUsed : ℕ
  diskRead : ℚ
  diskWrite : ℚ
  netRx : ℚ
  netTx : ℚ
  pid : ℕ
  threads : ℕ
  openFiles : ℕ
  connections : ℕ
  statusIdx : Fin statusChoices.length
  tags : List String
  verMaj : ℕ
  verMin : ℕ
  verPatch : ℕ

/-- The ranges `generate_technical_data`'s stdlib draws are guaranteed to lie
in: `random.randint(a, b)` is inclusive on both ends, `random.uniform(a, b)`
lies in `[a, b]`, `random.choices(pop, k=n)` draws `n` elements of `pop`. -/
structure TDRand.Valid (r : TDRand) : Prop where
  host_len : r.hostSuffix.length = 6
  host_chars : ∀ c ∈ r.hostSuffix, c ∈ alphanumChars
  ipA_lb : 1 ≤ r.ipA
  ipA_ub : r.ipA ≤ 255
  ipB_ub : r.ipB ≤ 255
  ipC_ub : r.ipC ≤ 255
  ipD_lb : 1 ≤ r.ipD
  ipD_ub : r.ipD ≤ 254
  mac_len : r.macBytes.length = 6
  mac_bytes : ∀ b ∈ r.macBytes, b ≤ 255
  uptime_lb : 3600 ≤ r.uptimeSeconds
  uptime_ub : r.uptimeSeconds ≤ 86400 * 30
  cpu_lb : 5 ≤ r.cpuUniform
  cpu_ub : r.cpuUniform ≤ 95
  memUsed_lb : 512 ≤ r.memUsed
  memUsed_ub : r.memUsed ≤ 16384
  diskRead_lb : 1/10 ≤ r.diskRead
  diskRead_ub : r.diskRead ≤ 500
  diskWrite_lb : 1/10 ≤ r.diskWrite
  diskWrite_ub : r.diskWrite ≤ 300
  netRx_lb : 1/100 ≤ r.netRx
  netRx_ub : r.netRx ≤ 1000
  netTx_lb : 1/100 ≤ r.netTx
  netTx_ub : r.netTx ≤ 500
  pid_lb : 1000 ≤ r.pid
  pid_ub : r.pid ≤ 65535
  threads_lb : 1 ≤ r.threads
  threads_ub : r.threads ≤ 64
  openFiles_lb : 10 ≤ r.openFiles
  openFiles_ub : r.openFiles ≤ 1000
  connections_ub : r.connections ≤ 500
  tags_lb : 2 ≤ r.tags.length
  tags_ub : r.tags.length ≤ 5
  tags_shape : ∀ t ∈ r.tags, t.length = 4 ∧ ∀ c ∈ t.data, c ∈ alphanumChars
  verMaj_lb : 1 ≤ r.verMaj
  verMaj_ub : r.verMaj ≤ 5
  verMin_ub : r.verMin ≤ 20
  verPatch_ub : r.verPatch ≤ 100

/-- `generate_technical_data` (server.py lines 45-80): the structured record
built from one call's draws `r`. -/
def generate_technical_data (r : TDRand) : JVal :=
  .obj [
    ("request_id", .str r.uuid),
    ("timestamp", .str r.nowIso),
    ("server_info", .obj [
      ("hostname", .str ("server-" ++ String.mk r.hostSuffix)),
      ("ip_address", .str (generate_random_ip r.ipA r.ipB r.ipC r.ipD)),
      ("mac_address", .str (generate_random_mac r.macBytes)),
      ("uptime_seconds", .num (r.uptimeSeconds : ℚ))]),
    ("metrics", .obj [
      ("cpu_usage_percent", .num (round2 r.cpuUniform)),
      ("memory_used_mb", .num (r.memUsed : ℚ)),
      ("memory_total_mb", .num 32768),
      ("disk_io_read_mbps", .num (round2 r.diskRead)),
      ("disk_io_write_mbps", .num (round2 r.diskWrite)),
      ("network_rx_mbps", .num (round2 r.netRx)),
      ("network_tx_mbps", .num (round2 r.netTx))]),
    ("process_info", .obj [
      ("pid", .num (r.pid : ℚ)),
      ("threads", .num (r.threads : ℚ)),
      ("open_files", .num (r.openFiles : ℚ)),
      ("connections", .num (r.connections : ℚ))]),
    ("status", .str (statusChoices.get r.statusIdx)),
    ("tags", .arr (r.tags.map .str)),
    ("version", .str (toString r.verMaj ++ "." ++ toString r.verMin ++ "." ++ toString r.verPatch))]

/-- Spaces making up one indentation prefix. -/
def indentSpaces (n : ℕ) : String := String.mk (List.replicate n ' ')

/-- The JSON escape of one character (quote, backslash and the common control
characters; other characters pass through unchanged). -/
def jsonEscapeChar (c : Char) : String :=
  if c = '"' then "\\\""
  else if c = '\\' then "\\\\"
  else if c = '\n' then "\\n"
  else if c = '\t' then "\\t"
  else if c = '\r' then "\\r"
  else String.mk [c]

/-- A JSON string literal with its quotes. -/
def jsonQuote (s : String) : String :=
  "\"" ++ String.join (s.data.map jsonEscapeChar) ++ "\""

/-- How a number serializes: integers without a decimal point; the repr of a
non-integral rational abstracts Python's float repr (no claim depends on it). -/
def jsonNum (q : ℚ) : String :=
  if q.den = 1 then toString q.num else toString q

/-- `json.dumps(value, indent=2)` (server.py line 209): each nesting level
indents by two more spaces, keys keep insertion order, items separated by
`,` + newline and keys from values by `: `. -/
def json_dumps_aux : JVal → ℕ → String
  | .null, _ => "null"
  | .bool b, _ => cond b "true" "false"
  | .num q, _ => jsonNum q
  | .str s, _ => jsonQuote s
  | .arr elems, ind =>
    if elems.isEmpty then "[]"
    else
      "[\n"
      ++ String.intercalate ",\n"
           (elems.attach.map (fun t => indentSpaces (ind + 2) ++ json_dumps_aux t.1 (ind + 2)))
      ++ "\n" ++ indentSpaces ind ++ "]"
  | .obj fields, ind =>
    if fields.isEmpty then "\x7b\x7d"
    else
      "\x7b\n"
      ++ String.intercalate ",\n"
           (fields.attach.map (fun t =>
             indentSpaces (ind + 2) ++ jsonQuote t.1.1 ++ ": " ++ json_dumps_aux t.1.2 (ind + 2)))
      ++ "\n" ++ indentSpaces ind ++ "\x7d"
termination_by v _ => sizeOf v
decreasing_by
  · have h := List.sizeOf_lt_of_mem t.2
    simp only [JVal.arr.sizeOf_spec]
    omega
  · obtain ⟨⟨k, v⟩, hm⟩ := t
    have h := List.sizeOf_lt_of_mem hm
    simp only [JVal.obj.sizeOf_spec]
    simp only [Prod.mk.sizeOf_spec] at h
    omega

/-- `json.dumps(value, indent=2)` at top level. -/
def json_dumps (v : JVal) : String := json_dumps_aux v 0

/-- `types.TextContent(type="text", text=...)`: the single content block kind
this server produces. -/
structure TextContent where
  type : String
  text : String

/-- One structured diagnostic log record `handle_call_tool` emits (the
`logger.info`/`logger.exception` calls of server.py lines 167, 212, 222, 238),
with the extra fields each carries. -/
inductive LogEvent where
  | called (tool : String) (args : List (String × JVal)) (timestamp : String)
  | completed (tool : String) (duration_ms : ℚ) (response_length : ℕ)
  | outbound (tool : String) (response_length : ℕ) (payload : String)
      (duration_ms : ℚ) (timestamp : String)
  | failed (tool : String) (error : String) (duration_ms : ℚ)

/-- The ambient effects one `handle_call_tool` call reads: the stream of
`random` draws (one `TDRand` per `generate_technical_data` call), the clock's
ISO rendering, the measured duration, and the package `__version__` (read
from the VERSION file at startup). -/
structure CallEnv where
  rng : ℕ → TDRand
  nowIso : String
  durationMs : ℚ
  version : String

/-- Python's name for a JSON value's type, as it appears in TypeError text. -/
def pyTypeName : JVal → String
  | .null => "NoneType"
  | .bool _ => "bool"
  | .num q => if q.den = 1 then "int" else "float"
  | .str _ => "str"
  | .arr _ => "list"
  | .obj _ => "dict"

/-- A JSON value as the number Python's `min`/`max` compare against an int:
numbers are themselves, `bool` is an int subclass (`True == 1`), anything
else raises `TypeError` as `max(value, 1)` does. -/
def pyNumValue : JVal → Except String ℚ
  | .num q => .ok q
  | .bool b => .ok (cond b 1 0)
  | v => .error ("'>' not supported between instances of '" ++ pyTypeName v ++ "' and 'int'")

/-- Python truthiness of a JSON value (used for `if include_delay:`). -/
def pyTruthy : JVal → Bool
  | .null => false
  | .bool b => b
  | .num q => q != 0
  | .str s => s != ""
  | .arr elems => !elems.isEmpty
  | .obj fields => !fields.isEmpty

/-- Python `len` of a JSON value, raising `TypeError` on non-sized values. -/
def pyLen : JVal → Except String ℕ
  | .str s => .ok s.length
  | .arr elems => .ok elems.length
  | .obj fields => .ok fields.length
  | v => .error ("object of type '" ++ pyTypeName v ++ "' has no len()")

/-- `min(max(arguments.get("count", 1), 1), 10)` (server.py line 175):
the requested count clamped to `[1, 10]`, defaulting to 1 when absent. -/
def clampCount (args : List (String × JVal)) : Except String ℚ :=
  match pyNumValue ((dictGet args "count").getD (.num 1)) with
  | .error e => .error e
  | .ok q => .ok (min (max q 1) 10)

/-- The `get-random-data` branch (server.py lines 174-186): clamp the count,
optionally sleep (unobservable in the result), then one record for count 1,
else an object with `records` and `count`.  `range(count)` on a non-integral
count raises the TypeError Python would. -/
def getRandomDataResult (env : CallEnv) (args : List (String × JVal)) : Except String JVal :=
  match clampCount args with
  | .error e => .error e
  | .ok count =>
    let _includeDelay := pyTruthy ((dictGet args "include_delay").getD (.bool false))
    if count = 1 then .ok (generate_technical_data (env.rng 0))
    else if count.den = 1 then
      .ok (.obj [
        ("records", .arr ((List.range count.num.toNat).map (fun i => generate_technical_data (env.rng i)))),
        ("count", .num count)])
    else .error "'float' object cannot be interpreted as an integer"

/-- The `echo` branch (server.py lines 188-194): the message defaults to `""`
when absent; `len(message)` raises on unsized values. -/
def echoResult (env : CallEnv) (args : List (String × JVal)) : Except String JVal :=
  let message := (dictGet args "message").getD (.str "")
  match pyLen message with
  | .error e => .error e
  | .ok n =>
    .ok (.obj [
      ("echoed_message", message),
      ("timestamp", .str env.nowIso),
      ("message_length", .num (n : ℚ))])

/-- The `server-status` branch (server.py lines 196-203). -/
def serverStatusResult (env : CallEnv) : Except String JVal :=
  .ok (.obj [
    ("server_name", .str "mcp-stdio-docker-test"),
    ("version", .str env.version),
    ("status", .str "running"),
    ("timestamp", .str env.nowIso),
    ("uptime_info", .str "Server is operational")])

/-- The dispatch inside `handle_call_tool`'s `try` block (server.py lines
173-206): route by tool name; an unregistered name raises
`ValueError(f"Unknown tool: ...")`, which the handler's `except` converts. -/
def callToolResult (env : CallEnv) (name : String) (args : List (String × JVal)) :
    Except String JVal :=
  if name = "get-random-data" then getRandomDataResult env args
  else if name = "echo" then echoResult env args
  else if name = "server-status" then serverStatusResult env
  else .error ("Unknown tool: " ++ name)

/-- `handle_call_tool` (server.py lines 159-242): a total function — every
failure of the dispatch is caught and returned as a single text block
`"Error: <message>"`, never re-raised to the protocol layer.  Besides the
single-element content list it returns the diagnostic log records it emits:
`called` always, then `completed` + `outbound` on success or `failed` on
failure. -/
def handle_call_tool (env : CallEnv) (name : String)
    (arguments : Option (List (String × JVal))) : List TextContent × List LogEvent :=
  let args := arguments.getD []
  match callToolResult env name args with
  | .ok result =>
    let responseJson := json_dumps result
    ([⟨"text", responseJson⟩],
     [.called name args env.nowIso,
      .completed name env.durationMs responseJson.length,
      .outbound name responseJson.length responseJson env.durationMs env.nowIso])
  | .error e =>
    ([⟨"text", "Error: " ++ e⟩],
     [.called name args env.nowIso,
      .failed name e env.durationMs])

/-- Modelled from the spec: the protocol session's read loop (it lives in the
external `mcp` library, not in this repository) "continuously decode[s] one
discrete message at a time", delegates each `call_tool` request to the
dispatcher, and keeps the session alive after every response — tool-level
errors "never break the transport".  Each request therefore yields exactly the
handler's response, in order. -/
def sessionRun (env : CallEnv)
    (reqs : List (String × Option (List (String × JVal)))) : List (List TextContent) :=
  reqs.map (fun rq => (handle_call_tool env rq.1 rq.2).1)

/-- One advertised tool of the static catalog. -/
structure ToolDecl where
  name : String
  description : String
  inputSchema : JVal

/-- `handle_list_tools` (server.py lines 107-156): the three advertised tools
with their JSON-schema input descriptors, verbatim. -/
def handle_list_tools : List ToolDecl :=
  [{ name := "get-random-data",
     description := "Returns random structured technical data for testing Docker stdio communications. Generates ~10-15 fields of technical metrics.",
     inputSchema := .obj [
       ("type", .str "object"),
       ("properties", .obj [
         ("count", .obj [
           ("type", .str "integer"),
           ("description", .str "Number of data records to generate (1-10, default: 1)"),
           ("minimum", .num 1),
           ("maximum", .num 10),
           ("default", .num 1)]),
         ("include_delay", .obj [
           ("type", .str "boolean"),
           ("description", .str "Add a small random delay (0-500ms) to simulate real API latency"),
           ("default", .bool false)])]),
       ("required", .arr [])] },
   { name := "echo",
     description := "Echoes back the provided message. Useful for testing basic stdio communication.",
     inputSchema := .obj [
       ("type", .str "object"),
       ("properties", .obj [
         ("message", .obj [
           ("type", .str "string"),
           ("description", .str "Message to echo back")])]),
       ("required", .arr [.str "message"])] },
   { name := "server-status",
     description := "Returns the current server status and version information.",
     inputSchema := .obj [
       ("type", .str "object"),
       ("properties", .obj []),
       ("required", .arr [])] }]

/-- The two byte streams of the process. -/
inductive StreamId where
  | stdout : StreamId
  | stderr : StreamId
deriving DecidableEq

/-- What a single write to a stream carries: a protocol frame or a rendered
diagnostic log line. -/
inductive WriteKind where
  | frame (content : String) : WriteKind
  | logLine (content : String) : WriteKind
deriving DecidableEq

/-- The handler/formatter configuration `configure_logging` installs
(logging_config.py lines 11-25): a `StreamHandler(sys.stderr)` with a JSON
formatter on the root logger. -/
structure LoggingConfig where
  stream : StreamId
  fmt : String
  datefmt : String

/-- `configure_logging` (logging_config.py lines 11-25): every log record is
handled by a handler bound to `sys.stderr`. -/
def configure_logging : LoggingConfig :=
  { stream := .stderr,
    fmt := "%(asctime)s %(levelname)s %(name)s %(message)s",
    datefmt := "%Y-%m-%dT%H:%M:%S" }

/-- One output-producing step of a server execution: either the session
writes a protocol frame, or a logger emits a diagnostic record. -/
inductive ServerAction where
  | sendResponse (frame : String) : ServerAction
  | emitLog (line : String) : ServerAction
deriving DecidableEq

/-- Modelled from the spec: the stdio transport (`mcp.server.stdio`, an
external library, used by `run_mcp_server` in server.py lines 245-267) writes
"every response ... as a single complete frame" on standard output, while
every diagnostic record goes through the configured logging handler's stream.
This maps one action to the (stream, write) it performs. -/
def actionWrite (cfg : LoggingConfig) : ServerAction → StreamId × WriteKind
  | .sendResponse f => (.stdout, .frame f)
  | .emitLog l => (cfg.stream, .logLine l)

/-- The full write trace of an execution: one (stream, write) per action, in
order. -/
def executionTrace (cfg : LoggingConfig) (acts : List ServerAction) :
    List (StreamId × WriteKind) :=
  acts.map (actionWrite cfg)

/-- ANSI color codes of the log viewer (view-logs.py lines 23-31). -/
def colorReset : String := "\x1b[0m"

/-- Bold. -/
def colorBold : String := "\x1b[1m"

/-- Dim. -/
def colorDim : String := "\x1b[2m"

/-- Cyan. -/
def colorCyan : String := "\x1b[36m"

/-- Green. -/
def colorGreen : String := "\x1b[32m"

/-- Yellow. -/
def colorYellow : String := "\x1b[33m"

/-- Red. -/
def colorRed : String := "\x1b[31m"

/-- Gray. -/
def colorGray : String := "\x1b[90m"

/-- Whether `xs` starts with `pat` (character lists). -/
def startsWithChars : List Char → List Char → Bool
  | [], _ => true
  | _ :: _, [] => false
  | c :: cs, d :: ds => c == d && startsWithChars cs ds

/-- Whether `pat` occurs somewhere in `s` (character lists): Python's
`pat in s` substring test. -/
def hasSubstringAux (pat : List Char) : List Char → Bool
  | [] => startsWithChars pat []
  | c :: cs => startsWithChars pat (c :: cs) || hasSubstringAux pat cs

/-- Python's `pat in s` on strings. -/
def strContains (s pat : String) : Bool := hasSubstringAux pat.data s.data

/-- Replace every occurrence of a non-empty `pat` by `rep`, left to right
(character lists).  Structural recursion on a step counter so the kernel can
evaluate it: every step consumes at least one character, so `s.length` steps
always finish the input. -/
def replaceChars (pat rep : List Char) : ℕ → List Char → List Char
  | 0, s => s
  | _ + 1, [] => []
  | n + 1, c :: cs =>
    if pat.length ≠ 0 ∧ startsWithChars pat (c :: cs) then
      rep ++ replaceChars pat rep n (cs.drop (pat.length - 1))
    else c :: replaceChars pat rep n cs

/-- Python `s.replace(pat, rep)` for a non-empty pattern (the viewer only
replaces `"Z"`). -/
def pyReplace (s pat rep : String) : String :=
  if pat.data.isEmpty then s
  else String.mk (replaceChars pat.data rep.data s.data.length s.data)

/-- Python two-digit parse used while checking an ISO timestamp shape. -/
def twoDigitNum (a b : Char) : Option ℕ :=
  if a.isDigit && b.isDigit then some ((a.toNat - 48) * 10 + (b.toNat - 48)) else none

/-- Model of `datetime.fromisoformat(ts)` + `strftime("%H:%M:%S")` for the
shapes the server's logs produce: a `YYYY-MM-DD` date, optionally followed by
`T` or a space and `HH:MM:SS` (any offset/fraction tail is left unchecked).
A bare date renders as midnight, as `fromisoformat` does; anything else is a
parse failure (`None`). -/
def isoHMS (ts : String) : Option String :=
  match ts.data with
  | y1 :: y2 :: y3 :: y4 :: '-' :: m1 :: m2 :: '-' :: d1 :: d2 :: rest =>
    if !([y1, y2, y3, y4].all Char.isDigit) then none
    else
      match twoDigitNum m1 m2, twoDigitNum d1 d2 with
      | some mo, some da =>
        if mo < 1 || 12 < mo || da < 1 || 31 < da then none
        else
          match rest with
          | [] => some "00:00:00"
          | sep :: h1 :: h2 :: ':' :: n1 :: n2 :: ':' :: s1 :: s2 :: _tail =>
            if sep = 'T' || sep = ' ' then
              match twoDigitNum h1 h2, twoDigitNum n1 n2, twoDigitNum s1 s2 with
              | some hh, some nn, some ss =>
                if hh ≤ 23 && nn ≤ 59 && ss ≤ 59 then
                  some (String.mk [h1, h2, ':', n1, n2, ':', s1, s2])
                else none
              | _, _, _ => none
            else none
          | _ => none
      | _, _ => none
  | _ => none

/-- `format_timestamp` (view-logs.py lines 34-39): render `HH:MM:SS` when the
string parses as an ISO timestamp, else fall back to its first 8 characters. -/
def format_timestamp (ts : String) : String :=
  match isoHMS (pyReplace ts "Z" "+00:00") with
  | some hms => hms
  | none => String.mk (ts.data.take 8)

/-- Python `repr` of a JSON-decoded value (its `str` for containers): used by
the viewer's `f"{k}={v}"` argument summary.  String quoting/escaping inside
containers abstracts CPython's repr; no claim depends on it. -/
def pyRepr : JVal → String
  | .null => "None"
  | .bool b => cond b "True" "False"
  | .num q => if q.den = 1 then toString q.num else toString q
  | .str s => "'" ++ s ++ "'"
  | .arr elems =>
    "[" ++ String.intercalate ", " (elems.attach.map (fun t => pyRepr t.1)) ++ "]"
  | .obj fields =>
    "\x7b" ++ String.intercalate ", "
      (fields.attach.map (fun t => "'" ++ t.1.1 ++ "': " ++ pyRepr t.1.2)) ++ "\x7d"
termination_by v => sizeOf v
decreasing_by
  · have h := List.sizeOf_lt_of_mem t.2
    simp only [JVal.arr.sizeOf_spec]
    omega
  · obtain ⟨⟨k, v⟩, hm⟩ := t
    have h := List.sizeOf_lt_of_mem hm
    simp only [JVal.obj.sizeOf_spec]
    simp only [Prod.mk.sizeOf_spec] at h
    omega

/-- Python `str` of a JSON-decoded value: a string prints bare, anything else
as its repr. -/
def pyStr : JVal → String
  | .str s => s
  | v => pyRepr v

/-- Python `f"{x:<ws}"`: pad on the right with spaces to width `w`. -/
def padRightTo (w : ℕ) (s : String) : String :=
  s ++ String.mk (List.replicate (w - s.length) ' ')

/-- Python `f"{x:>w}"`: pad on the left with spaces to width `w`. -/
def padLeftTo (w : ℕ) (s : String) : String :=
  String.mk (List.replicate (w - s.length) ' ') ++ s

/-- Python `f"{x:.2f}"`: fixed two decimals (round-half-to-even). -/
def fmtFixed2 (q : ℚ) : String :=
  let scaled := roundHalfEven (q.num * 100) q.den
  let sign := if scaled < 0 then "-" else ""
  let a := scaled.natAbs
  sign ++ toString (a / 100) ++ "." ++ (if a % 100 < 10 then "0" else "") ++ toString (a % 100)

/-- The viewer's compact `k=v` argument summary
(`" ".join(f"{k}={v}" ...) if args else ""`, view-logs.py line 68). -/
def argsSummary (args : List (String × JVal)) : String :=
  if args.isEmpty then ""
  else String.intercalate " " (args.map (fun kv => kv.1 ++ "=" ++ pyStr kv.2))

/-- The success line of the viewer (view-logs.py line 70). -/
def renderSuccess (ts tool argsStr : String) (duration : ℚ) (size : ℤ) : String :=
  colorGray ++ ts ++ colorReset ++ " " ++ colorGreen ++ "✓" ++ colorReset ++ " "
  ++ colorBold ++ padRightTo 20 tool ++ colorReset ++ " "
  ++ colorCyan ++ padRightTo 25 argsStr ++ colorReset ++ " "
  ++ colorYellow ++ padLeftTo 6 (fmtFixed2 (duration : ℚ)) ++ "ms" ++ colorReset ++ " "
  ++ colorDim ++ padLeftTo 4 (toString size) ++ "b" ++ colorReset

/-- The failure line of the viewer (view-logs.py line 78). -/
def renderFail (ts tool err : String) : String :=
  colorGray ++ ts ++ colorReset ++ " " ++ colorRed ++ "✗" ++ colorReset ++ " "
  ++ colorBold ++ padRightTo 20 tool ++ colorReset ++ " "
  ++ colorRed ++ err ++ colorReset

/-- The startup banner of the viewer (view-logs.py line 84). -/
def renderBanner (version : String) : String :=
  "\n" ++ colorGreen ++ String.mk (List.replicate 80 '═')
  ++ "\n🚀 MCP Server v" ++ version ++ "\n" ++ String.mk (List.replicate 80 '═')
  ++ colorReset ++ "\n"

/-- The stop line of the viewer (view-logs.py line 87). -/
def renderStopped : String := colorYellow ++ "⏹  Stopped" ++ colorReset

/-- One decoded structured log record as the viewer reads it: each field is
`log.get(key, default)`-ed inside `process_log`, so absent keys are `none`
here. -/
structure LogRec where
  message : Option String := none
  asctime : Option String := none
  tool_name : Option String := none
  arguments : Option (List (String × JVal)) := none
  duration_ms : Option ℚ := none
  response_length : Option ℤ := none
  error : Option String := none
  version : Option String := none

/-- The correlator's single pending slot (`self.current_request`): the most
recent `called` event's timestamp, tool and arguments.  The empty dict is
`none`. -/
structure PendingReq where
  timestamp : String
  tool : String
  args : List (String × JVal)

/-- `RequestTracker.process_log` (view-logs.py lines 45-89) as a step
function: from the pending slot and one record to the new slot and the
rendered line, if any.  A `called` event overwrites the slot silently; a
`completed` with an empty slot renders nothing; a `failed` with an empty slot
falls back to the event's own `tool_name` and timestamp. -/
def process_log (st : Option PendingReq) (log : LogRec) :
    Option PendingReq × Option String :=
  let message := log.message.getD ""
  let timestamp := format_timestamp (log.asctime.getD "")
  if strContains message "MCP tool called" then
    (some ⟨timestamp, log.tool_name.getD "?", log.arguments.getD []⟩, none)
  else if strContains message "MCP tool completed" then
    match st with
    | none => (none, none)
    | some p =>
      let duration := log.duration_ms.getD 0
      let size := log.response_length.getD 0
      (none, some (renderSuccess p.timestamp p.tool (argsSummary p.args) duration size))
  else if strContains message "MCP tool failed" then
    let tool := match st with | some p => p.tool | none => log.tool_name.getD "?"
    let err := String.mk ((log.error.getD "").data.take 50)
    let ts := match st with | some p => p.timestamp | none => timestamp
    (none, some (renderFail ts tool err))
  else if strContains message "Server Starting" || strContains message "MCP server starting" then
    (st, some (renderBanner (log.version.getD "?")))
  else if strContains message "MCP server stopped" then
    (st, some renderStopped)
  else
    (st, none)

/-- Feed a whole event sequence to a fresh tracker and collect the rendered
lines in order (the viewer's main loop prints each non-`None` return). -/
def runTracker (logs : List LogRec) : List String :=
  (logs.foldl
    (fun acc log =>
      let next := process_log acc.1 log
      (next.1, acc.2 ++ next.2.toList))
    ((none : Option PendingReq), ([] : List String))).2

/-- A concrete draw record used by the witnesses: every field inside the
ranges Python's generators guarantee. -/
def sampleRand : TDRand :=
  { uuid := "123e4567-e89b-12d3-a456-426614174000",
    nowIso := "2024-01-01T00:00:00+00:00",
    hostSuffix := ['a', 'b', 'c', '1', '2', '3'],
    ipA := 10, ipB := 0, ipC := 0, ipD := 7,
    macBytes := [0, 17, 34, 51, 68, 85],
    uptimeSeconds := 7200,
    cpuUniform := 42,
    memUsed := 2048,
    diskRead := 12, diskWrite := 7, netRx := 100, netTx := 50,
    pid := 4242, threads := 8, openFiles := 64, connections := 3,
    statusIdx := ⟨1, by decide⟩,
    tags := ["ab12", "cd34"],
    verMaj := 2, verMin := 3, verPatch := 4 }

/-- The concrete call environment used by the witnesses. -/
def env0 : CallEnv :=
  { rng := fun _ => sampleRand,
    nowIso := "2024-01-01T00:00:00+00:00",
    durationMs := 0,
    version := "0.1.0" }

/-- A `MCP tool called` record as the server logs it. -/
def calledEvt (tool ts : String) : LogRec :=
  { message := some "MCP tool called", asctime := some ts,
    tool_name := some tool, arguments := some [] }

/-- A `MCP tool completed` record as the server logs it. -/
def completedEvt (tool : String) (d : ℚ) (n : ℤ) (ts : String) : LogRec :=
  { message := some "MCP tool completed", asctime := some ts,
    tool_name := some tool, duration_ms := some d, response_length := some n }

/-- A `MCP tool failed` record as the server logs it. -/
def failedEvt (tool err ts : String) : LogRec :=
  { message := some "MCP tool failed", asctime := some ts,
    tool_name := some tool, error := some err }

/-- The first sequence of claim C4:
called(A), completed(12, 100), called(B), failed("boom"). -/
def seqA : List LogRec :=
  [calledEvt "alpha" "2024-01-01T10:00:00",
   completedEvt "alpha" 12 100 "2024-01-01T10:00:01",
   calledEvt "bravo" "2024-01-01T10:00:02",
   failedEvt "bravo" "boom" "2024-01-01T10:00:03"]

/-- The second sequence of claim C4: called(A), called(B), completed. -/
def seqB : List LogRec :=
  [calledEvt "alpha" "2024-01-01T10:00:00",
   calledEvt "bravo" "2024-01-01T10:00:01",
   completedEvt "bravo" 5 64 "2024-01-01T10:00:02"]

/-- Claim C1: for every tool name and argument mapping, `handle_call_tool`
returns exactly one result with exactly one text content block and never
raises to the protocol layer (it is a total function here); when the dispatch
fails — unknown tool included — the single block's text is
`"Error: <message>"`, returned as a successful response. -/
theorem call_tool_single_response (env : CallEnv) (name : String)
    (arguments : Option (List (String × JVal))) :
    (handle_call_tool env name arguments).1.length = 1
    ∧ ∀ e, callToolResult env name (arguments.getD []) = .error e →
        (handle_call_tool env name arguments).1 = [⟨"text", "Error: " ++ e⟩] := by
  constructor
  · cases h : callToolResult env name (arguments.getD []) <;> simp [handle_call_tool, h]
  · intro e he
    simp [handle_call_tool, he]

/-- Claim C1 witness: the error shape at the concrete unknown tool "nope". -/
theorem call_tool_single_response_witness :
    (handle_call_tool env0 "nope" none).1 = [⟨"text", "Error: Unknown tool: nope"⟩] :=
  (call_tool_single_response env0 "nope" none).2 "Unknown tool: nope" rfl

/-- Claim C2: in every execution trace, every write on stdout is a protocol
frame and every diagnostic log line lands on stderr — the protocol stream is
never contaminated by log output, because `configure_logging` binds the
handler to stderr while the transport writes frames to stdout. -/
theorem logging_never_touches_stdout (acts : List ServerAction) (w : StreamId × WriteKind)
    (hw : w ∈ executionTrace configure_logging acts) :
    (w.1 = StreamId.stdout → ∃ f, w.2 = WriteKind.frame f)
    ∧ (∀ l, w.2 = WriteKind.logLine l → w.1 = StreamId.stderr) := by
  simp only [executionTrace, List.mem_map] at hw
  obtain ⟨a, _, rfl⟩ := hw
  cases a <;> simp [actionWrite, configure_logging]

/-- Claim C2 witness: a concrete trace write — an emitted log line — is on
stderr. -/
theorem logging_never_touches_stdout_witness :
    ((StreamId.stderr, WriteKind.logLine "diag").1 = StreamId.stdout
      → ∃ f, (StreamId.stderr, WriteKind.logLine "diag").2 = WriteKind.frame f)
    ∧ (∀ l, (StreamId.stderr, WriteKind.logLine "diag").2 = WriteKind.logLine l
      → (StreamId.stderr, WriteKind.logLine "diag").1 = StreamId.stderr) :=
  logging_never_touches_stdout [ServerAction.emitLog "diag"]
    (StreamId.stderr, WriteKind.logLine "diag")
    (by simp [executionTrace, actionWrite, configure_logging])

/-- The witnesses' concrete draw record satisfies every stdlib range. -/
theorem sampleRand_valid : sampleRand.Valid := by
  constructor <;> first | decide | norm_num [sampleRand]

/-- Claim C3 counterexample: no outcome of the generator has
`metrics.memory_used_mb` strictly greater than `metrics.memory_total_mb` —
`memory_used_mb` is drawn from `randint(512, 16384)` while `memory_total_mb`
is the constant 32768, so the claimed outcome does not exist. -/
theorem mem_used_exceeds_total_refuted :
    ¬ ∃ r : TDRand, r.Valid ∧ ∃ u t : ℚ,
        ((generate_technical_data r).getField "metrics").bind
          (fun m => JVal.getField m "memory_used_mb") = some (.num u)
        ∧ ((generate_technical_data r).getField "metrics").bind
          (fun m => JVal.getField m "memory_total_mb") = some (.num t)
        ∧ t < u := by
  rintro ⟨r, hv, u, t, hu, ht, hlt⟩
  have hu2 : JVal.num (r.memUsed : ℚ) = JVal.num u := Option.some.inj hu
  have ht2 : JVal.num (32768 : ℚ) = JVal.num t := Option.some.inj ht
  have hu3 : (r.memUsed : ℚ) = u := by injection hu2
  have ht3 : (32768 : ℚ) = t := by injection ht2
  have hb : (r.memUsed : ℚ) ≤ 16384 := by exact_mod_cast hv.memUsed_ub
  rw [← hu3, ← ht3] at hlt
  linarith

/-- Claim C3, amended: `memory_used_mb` is generated independently of
`memory_total_mb`, but its range `[512, 16384]` keeps it strictly below the
constant total 32768 on every outcome. -/
theorem mem_used_always_below_total (r : TDRand) (h : r.Valid) :
    ((generate_technical_data r).getField "metrics").bind
      (fun m => JVal.getField m "memory_used_mb") = some (.num (r.memUsed : ℚ))
    ∧ ((generate_technical_data r).getField "metrics").bind
      (fun m => JVal.getField m "memory_total_mb") = some (.num 32768)
    ∧ (r.memUsed : ℚ) < 32768 := by
  refine ⟨rfl, rfl, ?_⟩
  have hb : (r.memUsed : ℚ) ≤ 16384 := by exact_mod_cast h.memUsed_ub
  linarith

/-- Claim C3 witness: the bound at the concrete draw record. -/
theorem mem_used_always_below_total_witness :
    ((generate_technical_data sampleRand).getField "metrics").bind
      (fun m => JVal.getField m "memory_used_mb") = some (.num 2048)
    ∧ ((generate_technical_data sampleRand).getField "metrics").bind
      (fun m => JVal.getField m "memory_total_mb") = some (.num 32768)
    ∧ (2048 : ℚ) < 32768 :=
  mem_used_always_below_total sampleRand sampleRand_valid

/-- Claim C4: fed called(A), completed(12, 100), called(B), failed("boom"),
the correlator renders exactly two lines — a success line for A (and not B),
then a failure line for B; fed called(A), called(B), completed, it renders
exactly one line labelled B, not A: the second `called` silently overwrites
the single pending slot. -/
theorem tracker_renders_claimed_sequences :
    (runTracker seqA).length = 2
    ∧ strContains ((runTracker seqA).getD 0 "") "✓" = true
    ∧ strContains ((runTracker seqA).getD 0 "") "alpha" = true
    ∧ strContains ((runTracker seqA).getD 0 "") "bravo" = false
    ∧ strContains ((runTracker seqA).getD 1 "") "✗" = true
    ∧ strContains ((runTracker seqA).getD 1 "") "bravo" = true
    ∧ strContains ((runTracker seqA).getD 1 "") "boom" = true
    ∧ (runTracker seqB).length = 1
    ∧ strContains ((runTracker seqB).getD 0 "") "✓" = true
    ∧ strContains ((runTracker seqB).getD 0 "") "bravo" = true
    ∧ strContains ((runTracker seqB).getD 0 "") "alpha" = false := by
  decide

/-- Claim C5: the effective count is the requested count clamped to `[1, 10]`
(1 when absent), and a call with count 15 produces exactly the same result as
one with count 10. -/
theorem count_clamped_to_range :
    (∀ q : ℚ, clampCount [("count", JVal.num q)] = .ok (min (max q 1) 10))
    ∧ clampCount [] = .ok 1
    ∧ ∀ env : CallEnv, callToolResult env "get-random-data" [("count", JVal.num 15)]
        = callToolResult env "get-random-data" [("count", JVal.num 10)] := by
  refine ⟨fun q => rfl, rfl, fun env => rfl⟩

/-- Claim C6: a tool name outside the registry yields the single block
`"Error: Unknown tool: <name>"` together with a `called` and a `failed` log
event, and the session goes on to answer the next request as usual. -/
theorem unknown_tool_handling (env : CallEnv) (name : String) (args : List (String × JVal))
    (h : name ∉ ["get-random-data", "echo", "server-status"]) :
    handle_call_tool env name (some args)
      = ([⟨"text", "Error: Unknown tool: " ++ name⟩],
         [.called name args env.nowIso, .failed name ("Unknown tool: " ++ name) env.durationMs])
    ∧ sessionRun env [(name, some args), ("echo", some [("message", JVal.str "ping")])]
        = [(handle_call_tool env name (some args)).1,
           (handle_call_tool env "echo" (some [("message", JVal.str "ping")])).1] := by
  simp only [List.mem_cons, List.not_mem_nil, or_false, not_or] at h
  obtain ⟨h1, h2, h3⟩ := h
  have e : callToolResult env name args = .error ("Unknown tool: " ++ name) := by
    simp [callToolResult, h1, h2, h3]
  constructor
  · simp [handle_call_tool, e]
    rfl
  · simp [sessionRun]

/-- Claim C6 witness: the concrete unregistered name "nope". -/
theorem unknown_tool_handling_witness :
    handle_call_tool env0 "nope" (some [])
      = ([⟨"text", "Error: Unknown tool: nope"⟩],
         [.called "nope" [] "2024-01-01T00:00:00+00:00",
          .failed "nope" "Unknown tool: nope" 0])
    ∧ sessionRun env0 [("nope", some []), ("echo", some [("message", JVal.str "ping")])]
        = [(handle_call_tool env0 "nope" (some [])).1,
           (handle_call_tool env0 "echo" (some [("message", JVal.str "ping")])).1] :=
  unknown_tool_handling env0 "nope" [] (by decide)

/-- Claim C7: with effective count `n`, the result is a single record when
`n = 1` and otherwise an object whose `records` has length `n` with
`count = n`; and every generated record's `status` is one of healthy,
degraded, warning, critical. -/
theorem get_random_data_shape (env : CallEnv) (args : List (String × JVal)) (n : ℕ)
    (h : clampCount args = .ok (n : ℚ)) :
    (n = 1 → callToolResult env "get-random-data" args
        = .ok (generate_technical_data (env.rng 0)))
    ∧ (n ≠ 1 → callToolResult env "get-random-data" args
        = .ok (.obj [
            ("records", .arr ((List.range n).map (fun i => generate_technical_data (env.rng i)))),
            ("count", .num (n : ℚ))])
        ∧ ((List.range n).map (fun i => generate_technical_data (env.rng i))).length = n)
    ∧ (∀ r : TDRand,
        (generate_technical_data r).getField "status" = some (.str (statusChoices.get r.statusIdx))
        ∧ statusChoices.get r.statusIdx ∈ ["healthy", "degraded", "warning", "critical"]) := by
  refine ⟨?_, ?_, ?_⟩
  · intro h1
    subst h1
    simp [callToolResult, getRandomDataResult, h]
  · intro h1
    have hne : ((n : ℚ) = 1) = False := by
      simp only [eq_iff_iff, iff_false]
      exact_mod_cast h1
    constructor
    · simp [callToolResult, getRandomDataResult, h, hne, Rat.den_natCast]
    · simp
  · intro r
    refine ⟨rfl, ?_⟩
    exact List.get_mem _ _ _

/-- Claim C7 witness: the concrete request count 3. -/
theorem get_random_data_shape_witness :
    (3 = 1 → callToolResult env0 "get-random-data" [("count", JVal.num 3)]
        = .ok (generate_technical_data (env0.rng 0)))
    ∧ (3 ≠ 1 → callToolResult env0 "get-random-data" [("count", JVal.num 3)]
        = .ok (.obj [
            ("records", .arr ((List.range 3).map (fun i => generate_technical_data (env0.rng i)))),
            ("count", .num (3 : ℚ))])
        ∧ ((List.range 3).map (fun i => generate_technical_data (env0.rng i))).length = 3)
    ∧ (∀ r : TDRand,
        (generate_technical_data r).getField "status" = some (.str (statusChoices.get r.statusIdx))
        ∧ statusChoices.get r.statusIdx ∈ ["healthy", "degraded", "warning", "critical"]) :=
  get_random_data_shape env0 [("count", JVal.num 3)] 3 rfl

/-- Claim C8: echoing a string message returns an object with
`echoed_message`, `timestamp` and `message_length`, where the echo equals the
message and the length equals its character count. -/
theorem echo_returns_message (env : CallEnv) (args : List (String × JVal)) (m : String)
    (h : dictGet args "message" = some (JVal.str m)) :
    callToolResult env "echo" args
      = .ok (.obj [
          ("echoed_message", JVal.str m),
          ("timestamp", JVal.str env.nowIso),
          ("message_length", JVal.num (m.length : ℚ))]) := by
  simp [callToolResult, echoResult, h, pyLen]

/-- Claim C8 witness: echoing "hi" yields length 2. -/
theorem echo_returns_message_witness :
    callToolResult env0 "echo" [("message", JVal.str "hi")]
      = .ok (.obj [
          ("echoed_message", JVal.str "hi"),
          ("timestamp", JVal.str "2024-01-01T00:00:00+00:00"),
          ("message_length", JVal.num 2)]) :=
  echo_returns_message env0 [("message", JVal.str "hi")] "hi" rfl

/-- Claim C9: although the advertised schema marks `message` as required,
calling echo without it does not error — the handler defaults the message to
`""` and returns `echoed_message = ""` with `message_length = 0`. -/
theorem echo_missing_message_ok (env : CallEnv) (args : List (String × JVal))
    (h : dictGet args "message" = none) :
    callToolResult env "echo" args
      = .ok (.obj [
          ("echoed_message", JVal.str ""),
          ("timestamp", JVal.str env.nowIso),
          ("message_length", JVal.num 0)])
    ∧ handle_list_tools.map ToolDecl.name = ["get-random-data", "echo", "server-status"]
    ∧ ∃ td ∈ handle_list_tools, td.name = "echo"
        ∧ JVal.getField td.inputSchema "required" = some (.arr [JVal.str "message"]) := by
  refine ⟨?_, rfl, ?_⟩
  · simp [callToolResult, echoResult, h, pyLen]
  · refine ⟨handle_list_tools.get ⟨1, by simp [handle_list_tools]⟩, ?_, rfl, rfl⟩
    exact List.get_mem _ _ _

/-- Claim C9 witness: the concrete empty argument mapping. -/
theorem echo_missing_message_ok_witness :
    callToolResult env0 "echo" []
      = .ok (.obj [
          ("echoed_message", JVal.str ""),
          ("timestamp", JVal.str "2024-01-01T00:00:00+00:00"),
          ("message_length", JVal.num 0)])
    ∧ handle_list_tools.map ToolDecl.name = ["get-random-data", "echo", "server-status"]
    ∧ ∃ td ∈ handle_list_tools, td.name = "echo"
        ∧ JVal.getField td.inputSchema "required" = some (.arr [JVal.str "message"]) :=
  echo_missing_message_ok env0 [] rfl

/-- Claim C10: a `MCP tool failed` event received while no call is pending
still renders a failure line, taking the tool label from the event's own
`tool_name` field, while a `MCP tool completed` event received while idle
renders nothing. -/
theorem idle_failed_renders_idle_completed_does_not (rec rec2 : LogRec)
    (hf : rec.message = some "MCP tool failed")
    (hc : rec2.message = some "MCP tool completed") :
    process_log none rec
      = (none, some (renderFail (format_timestamp (rec.asctime.getD ""))
          (rec.tool_name.getD "?") (String.mk ((rec.error.getD "").data.take 50))))
    ∧ process_log none rec2 = (none, none) := by
  have e1 : strContains "MCP tool failed" "MCP tool called" = false := by decide
  have e2 : strContains "MCP tool failed" "MCP tool completed" = false := by decide
  have e3 : strContains "MCP tool failed" "MCP tool failed" = true := by decide
  have e4 : strContains "MCP tool completed" "MCP tool called" = false := by decide
  have e5 : strContains "MCP tool completed" "MCP tool completed" = true := by decide
  constructor
  · simp [process_log, hf, e1, e2, e3]
  · simp [process_log, hc, e4, e5]

/-- Claim C10 witness: a concrete failed event with tool `solo` renders while
idle; a concrete completed event renders nothing while idle. -/
theorem idle_failed_completed_witness :
    process_log none (failedEvt "solo" "boom" "2024-01-01T10:00:03")
      = (none, some (renderFail "10:00:03" "solo" "boom"))
    ∧ process_log none (completedEvt "alpha" 12 100 "2024-01-01T10:00:01") = (none, none) :=
  idle_failed_renders_idle_completed_does_not
    (failedEvt "solo" "boom" "2024-01-01T10:00:03")
    (completedEvt "alpha" 12 100 "2024-01-01T10:00:01") rfl rfl
